import Mathlib

/-!
Verification development for the ROOT/GEANT geometry analyzer
(src/Geo/ROOTGeomAnalyzer.cxx): a shallow embedding of the path-length
and vertex-sampling engine over an abstract geometry oracle, with exact
rational arithmetic standing in for C doubles.

The TGeoManager navigation consumed by the analyzer is modelled as a pair
of oracle functions (point classification and the boundary-seek step), and
each entry point of the analyzer is translated statement by statement,
with a fuel parameter standing in for the unbounded C++ while loops.
-/

/-- A 3-vector of exact rationals, modelling ROOT TVector3 / double[3]. -/
structure Vec3 where
  x : ℚ
  y : ℚ
  z : ℚ
deriving DecidableEq

/-- A ROOT TGeoMaterial as read by the analyzer: IsMixture(), GetA(),
GetZ(), GetDensity(), and (for a TGeoMixture) the element (A,Z) pairs
returned by GetElement(i). -/
structure TGeoMaterial where
  isMixture : Bool
  A : ℕ
  Z : ℕ
  elements : List (ℕ × ℕ)
  density : ℚ
deriving DecidableEq

/-- Classification of a point: the outcome of SetCurrentPoint/FindNode/
GetCurrentVolume followed by the IsOutside-or-null-volume test and the
volume → medium → material resolution, each of which can yield null. -/
inductive Classify where
  | outside
  | noMedium
  | noMaterial
  | mat (m : TGeoMaterial)
deriving DecidableEq

/-- The geometry oracle (a loaded TGeoManager plus the top volume's
TGeoBBox).  `classify` reports what FindNode finds at a point.  `dist`
models the boundary-seek idiom `FindNextBoundary(); step = GetStep();
while (not IsEntering()) do Step(); step = GetStep()` from a navigator
position along the current direction: the returned value is the step after
which the navigator reports entering, with a near-infinite value (1E30
style) when the ray hits no further boundary.  dx,dy,dz are the box
half-lengths and ox,oy,oz its origin. -/
structure Geom where
  classify : Vec3 → Classify
  dist : Vec3 → Vec3 → ℚ
  dx : ℚ
  dy : ℚ
  dz : ℚ
  ox : ℚ
  oy : ℚ
  oz : ℚ

/-- Analyzer configuration: the unit scale factor fScale (SetUnits), the
density-weighting toggle (SetWeightWithDensity) and the scanner sample
counts (SetScannerNPoints / SetScannerNRays). -/
structure Config where
  fScale : ℚ
  fWeightWithDensity : Bool
  fNPoints : ℕ
  fNRays : ℕ
deriving DecidableEq

/-- Modelled from the spec: PathLengthList (EVGDrivers/PathLengthList.h is
not part of this excerpt) — the per-nuclide accumulator mapping a nuclide
pdg code to its accumulated length, modelled as a total map with default 0;
the key set (the nuclides discovered in the geometry) is carried separately
as `AnalyzerState.fCurrPDGCodeList`. -/
abbrev PathLengthList : Type := ℤ → ℚ

/-- Modelled from the spec: PathLengthList::SetAllToZero resets every
entry to zero. -/
def SetAllToZero : PathLengthList := fun _ => 0

/-- Modelled from the spec: PathLengthList::AddPathLength pdgc l adds l to
the entry for pdgc. -/
def AddPathLength (pdgc : ℤ) (l : ℚ) (pl : PathLengthList) : PathLengthList :=
  fun k => if k = pdgc then pl k + l else pl k

/-- Modelled from the spec: pdg::IonPdgCode(A,Z) (PDG/ is not part of this
excerpt) — the deterministic integer nuclide identifier derived from a
mass number A and atomic number Z (standard 10LZZZAAAI ion encoding; the
claims only need that it is determined by, and injective in, (A,Z)). -/
def ionPdgCode (A Z : ℕ) : ℤ := 1000000000 + 10000 * (Z : ℤ) + 10 * (A : ℤ)

/-- ROOTGeomAnalyzer::GetTargetPdgCode(TGeoMaterial*): the ion code built
from int(GetA()), int(GetZ()). -/
def GetTargetPdgCodeMat (m : TGeoMaterial) : ℤ := ionPdgCode m.A m.Z

/-- ROOTGeomAnalyzer::GetTargetPdgCode(TGeoElement*): the ion code built
from an element's (A,Z). -/
def GetTargetPdgCodeEle (e : ℕ × ℕ) : ℤ := ionPdgCode e.1 e.2

/-- ROOTGeomAnalyzer::GetWeight: the material density when density
weighting is enabled, otherwise 1.0. -/
def GetWeight (cfg : Config) (m : TGeoMaterial) : ℚ :=
  if cfg.fWeightWithDensity then m.density else 1

/-- ROOTGeomAnalyzer::WillNeverEnter: a step strictly above 9.99E29 means
the trajectory never enters the detector. -/
def WillNeverEnter (step : ℚ) : Bool :=
  decide (999000000000000000000000000000 < step)

/-- ROOTGeomAnalyzer::ScalePathLengths: every entry is multiplied by the
configured scale factor fScale. -/
def ScalePathLengths (cfg : Config) (pl : PathLengthList) : PathLengthList :=
  fun k => cfg.fScale * pl k

/-- Position advance as written in ComputePathLengths (and, with plain
doubles xx,yy,zz, in ComputeMaxPathLengthPDG): components 0,1,2 each grow
by step times the corresponding direction component. -/
def advanceXYZ (r u : Vec3) (step : ℚ) : Vec3 :=
  ⟨r.x + step * u.x, r.y + step * u.y, r.z + step * u.z⟩

/-- Position advance as written in GenerateVertex's first while loop:
the code increments r[1], r[2], r[3] by step times the x-, y- and
z-direction components respectively.  TVector3::operator() routes the
out-of-range index 3 to the x component (ROOT reports a bad index and
returns fX), so the x-direction increment lands on y, the y-direction
increment on z, and the z-direction increment on x. -/
def advanceIdx123 (r u : Vec3) (step : ℚ) : Vec3 :=
  ⟨r.x + step * u.z, r.y + step * u.x, r.z + step * u.y⟩

/-- The analyzer members touched by the public entry points.  An Option
field is none when the corresponding pointer is null — in particular after
a construction whose Load failed (missing geometry file), when none of
fGeometry, the two path-length lists or fCurrVertex has been set up. -/
structure AnalyzerState where
  cfg : Config
  fGeometry : Option Geom
  fCurrPathLengthList : Option PathLengthList
  fCurrMaxPathLengthList : Option PathLengthList
  fCurrPDGCodeList : List ℤ
  fCurrVertex : Option Vec3

/-- Abnormal outcomes of a modelled entry point: dereference of a null
member pointer, or a while loop that did not terminate within the
modelling fuel. -/
inductive GeomErr where
  | nullDeref
  | fuelOut
deriving DecidableEq

/-- The element loop of ComputePathLengths for a mixture material: for
each element of the mixture, the boundary-seek idiom is re-run from the
navigator's current position (which the previous element's Step calls have
already moved), the resulting step times the material weight is attributed
to that element's nuclide, and the local position is advanced by that
step.  Returns the final position and accumulator. -/
def cplMix (g : Geom) (cfg : Config) (u : Vec3) (m : TGeoMaterial) :
    List (ℕ × ℕ) → Vec3 → PathLengthList → Vec3 × PathLengthList
  | [], r, pl => (r, pl)
  | e :: es, r, pl =>
      let ionPdgc := GetTargetPdgCodeEle e
      let weight := GetWeight cfg m
      let step := g.dist r u
      cplMix g cfg u m es (advanceXYZ r u step)
        (AddPathLength ionPdgc (step * weight) pl)

/-- The stepping loop of ComputePathLengths: one unit of fuel per
iteration of the C++ `while ((not FlagNotInYet) or condition)` loop, with
`flag` playing FlagNotInYet.  The loop ends by `break` when the point is
outside after having entered, by the while guard going false when a null
medium or material is met after entry (condition left false with the flag
set), or by the early `return fCurrPathLengthList` when WillNeverEnter
fires during entry seeking — the result's Bool records that early,
unscaled return.  The list of positions passed to FindNode is returned for
inspection; none means the loop outlived the fuel. -/
def cplLoop (g : Geom) (cfg : Config) (u : Vec3) :
    ℕ → Vec3 → Bool → PathLengthList →
    Option (PathLengthList × List Vec3 × Bool)
  | 0, _, _, _ => none
  | fuel + 1, r, flag, pl =>
      match g.classify r with
      | .outside =>
          if flag then some (pl, [r], false)
          else
            let step := g.dist r u
            if WillNeverEnter step then some (pl, [r], true)
            else
              match cplLoop g cfg u fuel (advanceXYZ r u step) flag pl with
              | none => none
              | some (pl2, tr, early) => some (pl2, r :: tr, early)
      | .noMedium => some (pl, [r], false)
      | .noMaterial => some (pl, [r], false)
      | .mat m =>
          if m.isMixture then
            match cplMix g cfg u m m.elements r pl with
            | (rMix, plMix) =>
                match cplLoop g cfg u fuel rMix true plMix with
                | none => none
                | some (pl2, tr, early) => some (pl2, r :: tr, early)
          else
            let ionPdgc := GetTargetPdgCodeMat m
            let weight := GetWeight cfg m
            let step := g.dist r u
            match cplLoop g cfg u fuel (advanceXYZ r u step) true
                (AddPathLength ionPdgc (step * weight) pl) with
            | none => none
            | some (pl2, tr, early) => some (pl2, r :: tr, early)

/-- ROOTGeomAnalyzer::ComputePathLengths for a start point x and the unit
direction u (the C++ forms u as p/|p|).  The current list is reset to zero
and the stepping loop is run; on normal exit the list is rescaled by
fScale and stored, while a WillNeverEnter early return hands the list back
unscaled.  The function has no missing-geometry guard: with the members
still null it dereferences fCurrPathLengthList (SetAllToZero) and then
fGeometry (SetCurrentDirection), modelled as nullDeref. -/
def ComputePathLengths (st : AnalyzerState) (x u : Vec3) (fuel : ℕ) :
    Except GeomErr (PathLengthList × AnalyzerState) :=
  match st.fCurrPathLengthList with
  | none => .error .nullDeref
  | some _ =>
      match st.fGeometry with
      | none => .error .nullDeref
      | some g =>
          match cplLoop g st.cfg u fuel x false SetAllToZero with
          | none => .error .fuelOut
          | some (pl, _, early) =>
              if early then
                .ok (pl, { st with fCurrPathLengthList := some pl })
              else
                let pl2 := ScalePathLengths st.cfg pl
                .ok (pl2, { st with fCurrPathLengthList := some pl2 })

/-- Phase-1 loop of GenerateVertex: the same outer while structure as
cplLoop, but it accumulates a single scalar (step times weight) and only
when GetTargetPdgCode(mat) — the material-level code, with no mixture
expansion — equals the requested target pdg code; there is no
WillNeverEnter check in its entry seeking; and the position is advanced
through TVector3 indices 1,2,3 (advanceIdx123).  Returns the accumulated
total and the positions passed to FindNode. -/
def gvLoop1 (g : Geom) (cfg : Config) (u : Vec3) (tgtpdg : ℤ) :
    ℕ → Vec3 → Bool → ℚ → Option (ℚ × List Vec3)
  | 0, _, _, _ => none
  | fuel + 1, r, flag, dist =>
      match g.classify r with
      | .outside =>
          if flag then some (dist, [r])
          else
            let step := g.dist r u
            match gvLoop1 g cfg u tgtpdg fuel (advanceIdx123 r u step) flag dist with
            | none => none
            | some (d2, tr) => some (d2, r :: tr)
      | .noMedium => some (dist, [r])
      | .noMaterial => some (dist, [r])
      | .mat m =>
          let ionPdgc := GetTargetPdgCodeMat m
          let weight := GetWeight cfg m
          let step := g.dist r u
          let dist2 := if ionPdgc = tgtpdg then dist + step * weight else dist
          match gvLoop1 g cfg u tgtpdg fuel (advanceIdx123 r u step) true dist2 with
          | none => none
          | some (d2, tr) => some (d2, r :: tr)

/-- Phase-2 loop of GenerateVertex: from the start point, advance by the
fixed increment 0.001 at the top of every iteration (with the correct
component indices 0,1,2), re-classify, and while inside the target
material add increment times weight to distToVtx, until the while guard
`((not FlagNotInYet) or condition) and distToVtx < distVertex` fails or
the outside-after-entry break fires.  `cond` carries the C++ `condition`
value left by the previous iteration, as read by the guard.  Returns the
position at loop exit. -/
def gvLoop2 (g : Geom) (cfg : Config) (u : Vec3) (tgtpdg : ℤ) (distVertex : ℚ) :
    ℕ → Vec3 → Bool → Bool → ℚ → Option Vec3
  | 0, _, _, _, _ => none
  | fuel + 1, r, flag, cond, distToVtx =>
      if ((!flag) || cond) && decide (distToVtx < distVertex) then
        let r2 := advanceXYZ r u (1 / 1000)
        match g.classify r2 with
        | .outside =>
            if flag then some r2
            else gvLoop2 g cfg u tgtpdg distVertex fuel r2 flag false distToVtx
        | .noMedium => gvLoop2 g cfg u tgtpdg distVertex fuel r2 true false distToVtx
        | .noMaterial => gvLoop2 g cfg u tgtpdg distVertex fuel r2 true false distToVtx
        | .mat m =>
            let ionPdgc := GetTargetPdgCodeMat m
            let weight := GetWeight cfg m
            let d2 := if ionPdgc = tgtpdg then distToVtx + (1 / 1000) * weight
                      else distToVtx
            gvLoop2 g cfg u tgtpdg distVertex fuel r2 true true d2
      else some r

/-- ROOTGeomAnalyzer::GenerateVertex for start x, unit direction u, target
pdg code and the one Rndm() draw rnd in [0,1).  The stored vertex is reset
to (0,0,0) before anything else — with fCurrVertex still null (no
successful Load) that very SetXYZ dereferences it; with no geometry the
reset (0,0,0) vertex is returned after an error log; a zero phase-1 total
is an error log returning the reset vertex; otherwise phase 2 walks to the
drawn threshold rnd times total, steps one increment back, and stores the
result. -/
def GenerateVertex (st : AnalyzerState) (x u : Vec3) (tgtpdg : ℤ) (rnd : ℚ)
    (fuel : ℕ) : Except GeomErr (Vec3 × AnalyzerState) :=
  match st.fCurrVertex with
  | none => .error .nullDeref
  | some _ =>
      let st1 := { st with fCurrVertex := some ⟨0, 0, 0⟩ }
      match st1.fGeometry with
      | none => .ok (⟨0, 0, 0⟩, st1)
      | some g =>
          match gvLoop1 g st1.cfg u tgtpdg fuel x false 0 with
          | none => .error .fuelOut
          | some (dist, _) =>
              if dist = 0 then .ok (⟨0, 0, 0⟩, st1)
              else
                let distVertex := rnd * dist
                match gvLoop2 g st1.cfg u tgtpdg distVertex fuel x false true 0 with
                | none => .error .fuelOut
                | some rEnd =>
                    let v := advanceXYZ rEnd u (-(1 / 1000))
                    .ok (v, { st1 with fCurrVertex := some v })

/-- The bounded loop of ComputeMaxPathLengthPDG: at most `fuel` more
iterations (the C++ runs it with `counterloop < 100`, i.e. fuel 100), the
FlagNotInYet/condition exits of cplLoop, no WillNeverEnter check anywhere.
A segment through a material whose ion pdg code equals the scanned one
adds its raw step to Length and overwrites the single `weight` cell with
that material's weight; other segments leave both untouched.  Besides the
final Length and weight, the loop returns the traversed segments as
(ion pdg code, step, weight of that material) triples, and a marker that
is true when the loop ended through its own guard or break (rather than
by exhausting the iteration budget) — pure instrumentation, used to
transfer small-budget evaluations to the full budget of 100. -/
def cmplLoop (g : Geom) (cfg : Config) (u : Vec3) (pdgc : ℤ) :
    ℕ → Vec3 → Bool → ℚ → ℚ → ℚ × ℚ × List (ℤ × ℚ × ℚ) × Bool
  | 0, _, _, len, w => (len, w, [], false)
  | fuel + 1, r, flag, len, w =>
      match g.classify r with
      | .outside =>
          if flag then (len, w, [], true)
          else
            let step := g.dist r u
            cmplLoop g cfg u pdgc fuel (advanceXYZ r u step) flag len w
      | .noMedium => (len, w, [], true)
      | .noMaterial => (len, w, [], true)
      | .mat m =>
          let ionPdgc := GetTargetPdgCodeMat m
          let step := g.dist r u
          match cmplLoop g cfg u pdgc fuel (advanceXYZ r u step) true
              (if ionPdgc = pdgc then len + step else len)
              (if ionPdgc = pdgc then GetWeight cfg m else w) with
          | (len3, w3, segs, ex) =>
              (len3, w3, (ionPdgc, step, GetWeight cfg m) :: segs, ex)

/-- ROOTGeomAnalyzer::ComputeMaxPathLengthPDG: run the loop with the
source's iteration budget of 100 from xyz along the (already normalized)
direction u and return the final Length times the final weight.  (The C++
passes the start point through single-precision floats xx,yy,zz; the
model keeps exact values.) -/
def ComputeMaxPathLengthPDG (g : Geom) (cfg : Config) (xyz u : Vec3)
    (pdgc : ℤ) : ℚ :=
  match cmplLoop g cfg u pdgc 100 xyz false 0 0 with
  | (len, w, _, _) => len * w

/-- The traversed-segment list of a ComputeMaxPathLengthPDG run. -/
def cmplSegs (g : Geom) (cfg : Config) (xyz u : Vec3) (pdgc : ℤ) :
    List (ℤ × ℚ × ℚ) :=
  match cmplLoop g cfg u pdgc 100 xyz false 0 0 with
  | (_, _, segs, _) => segs

/-- A run of the bounded loop that ended through its own guard or break
(marker true) is unaffected by raising the iteration budget. -/
theorem cmplLoop_extend (g : Geom) (cfg : Config) (u : Vec3) (pdgc : ℤ) :
    ∀ (fuel m : ℕ) (r : Vec3) (flag : Bool) (len w len2 w2 : ℚ)
      (segs : List (ℤ × ℚ × ℚ)),
      cmplLoop g cfg u pdgc fuel r flag len w = (len2, w2, segs, true) →
      cmplLoop g cfg u pdgc (fuel + m) r flag len w = (len2, w2, segs, true)
  | 0, m, r, flag, len, w, len2, w2, segs, h => by
      simp [cmplLoop] at h
  | fuel + 1, m, r, flag, len, w, len2, w2, segs, h => by
      have hsucc : fuel + 1 + m = (fuel + m) + 1 := by omega
      rw [hsucc]
      unfold cmplLoop at h ⊢
      cases hc : g.classify r with
      | outside =>
          rw [hc] at h
          dsimp only at h ⊢
          cases flag with
          | true => simpa using h
          | false =>
              simp only [Bool.false_eq_true, if_false] at h ⊢
              exact cmplLoop_extend g cfg u pdgc fuel m _ _ _ _ _ _ _ h
      | noMedium =>
          rw [hc] at h
          dsimp only at h ⊢
          exact h
      | noMaterial =>
          rw [hc] at h
          dsimp only at h ⊢
          exact h
      | mat mm =>
          rw [hc] at h
          dsimp only at h ⊢
          rcases hrec : cmplLoop g cfg u pdgc fuel
              (advanceXYZ r u (g.dist r u)) true
              (if GetTargetPdgCodeMat mm = pdgc then len + g.dist r u else len)
              (if GetTargetPdgCodeMat mm = pdgc then GetWeight cfg mm else w)
            with ⟨len3, w3, segs3, ex⟩
          rw [hrec] at h
          simp only [Prod.mk.injEq] at h
          obtain ⟨h1, h2, h3, h4⟩ := h
          subst h4
          rw [cmplLoop_extend g cfg u pdgc fuel m _ _ _ _ _ _ _ hrec]
          simp [h1, h2, h3]

/-- Sum of the raw boundary steps of the segments matching pdgc. -/
def matchLengthSum (pdgc : ℤ) : List (ℤ × ℚ × ℚ) → ℚ
  | [] => 0
  | s :: rest => (if s.1 = pdgc then s.2.1 else 0) + matchLengthSum pdgc rest

/-- Weight of the last segment matching pdgc, with default w0 when none
matches. -/
def lastMatchWeight (pdgc : ℤ) (w0 : ℚ) : List (ℤ × ℚ × ℚ) → ℚ
  | [] => w0
  | s :: rest => lastMatchWeight pdgc (if s.1 = pdgc then s.2.2 else w0) rest

/-- The per-segment weighted sum over the matching segments: sum of
(step times that segment's own weight). -/
def matchWeightedSum (pdgc : ℤ) : List (ℤ × ℚ × ℚ) → ℚ
  | [] => 0
  | s :: rest => (if s.1 = pdgc then s.2.1 * s.2.2 else 0) + matchWeightedSum pdgc rest

/-- Integer square root by bounded search: the largest k with k*k ≤ n.
Exact on perfect squares — the only operands the scan produces in this
development. -/
def isqrt (n : ℕ) : ℕ :=
  (List.range (n + 1)).foldl (fun a k => if k * k ≤ n then k else a) 0

/-- Square root of a non-negative rational whose numerator and denominator
are perfect squares: the model's stand-in for the C library sqrt in the
direction normalization of the scan. -/
def ratSqrt (q : ℚ) : ℚ := (isqrt q.num.toNat : ℚ) / (isqrt q.den : ℚ)

/-- Direction normalization of the scan: each component divided by
dirTot, the square root of the component square sum. -/
def normDir (d : Vec3) : Vec3 :=
  ⟨d.x / ratSqrt (d.x * d.x + d.y * d.y + d.z * d.z),
   d.y / ratSqrt (d.x * d.x + d.y * d.y + d.z * d.z),
   d.z / ratSqrt (d.x * d.x + d.y * d.y + d.z * d.z)⟩

/-- The scan's running-maximum update: `if (Length > MaxPath) MaxPath =
Length`. -/
def maxPathUpdate (len acc : ℚ) : ℚ := if len > acc then len else acc

/-- The inner ray loop of one scanned surface point: each ray takes three
Rndm() draws from the shared stream at position k, combines them through
the face's direction pattern, normalizes, runs ComputeMaxPathLengthPDG
from the point, and keeps the running maximum.  Returns the final maximum
and the stream position after the loop. -/
def rayLoop (g : Geom) (cfg : Config) (pdgc : ℤ) (stream : ℕ → ℚ)
    (dirOf : ℚ → ℚ → ℚ → Vec3) (xyz : Vec3) :
    ℕ → ℕ → ℚ → ℚ × ℕ
  | 0, k, acc => (acc, k)
  | n + 1, k, acc =>
      rayLoop g cfg pdgc stream dirOf xyz n (k + 3)
        (maxPathUpdate
          (ComputeMaxPathLengthPDG g cfg xyz
            (normDir (dirOf (stream k) (stream (k + 1)) (stream (k + 2)))) pdgc)
          acc)

/-- The point loop of one scanned box face: each surface point takes two
Rndm() draws through the face's point pattern, then runs the fNRays-long
ray loop; the running maximum and the stream position thread through. -/
def pointLoop (g : Geom) (cfg : Config) (pdgc : ℤ) (stream : ℕ → ℚ)
    (ptOf : ℚ → ℚ → Vec3) (dirOf : ℚ → ℚ → ℚ → Vec3) :
    ℕ → ℕ → ℚ → ℚ × ℕ
  | 0, k, acc => (acc, k)
  | n + 1, k, acc =>
      match rayLoop g cfg pdgc stream dirOf (ptOf (stream k) (stream (k + 1)))
          cfg.fNRays (k + 2) acc with
      | (acc2, k2) => pointLoop g cfg pdgc stream ptOf dirOf n k2 acc2

/-- Surface-point pattern of the scan's TOP face. -/
def topPt (g : Geom) (a b : ℚ) : Vec3 :=
  ⟨g.ox - g.dx + 2 * g.dx * a, g.oy + g.dy, g.oz - g.dz + 2 * g.dz * b⟩

/-- Direction pattern of the scan's TOP face (before normalization). -/
def topDir (a b c : ℚ) : Vec3 := ⟨-(1 / 2) + a, -b, -(1 / 2) + c⟩

/-- Surface-point pattern of the scan's BOTTOM face. -/
def bottomPt (g : Geom) (a b : ℚ) : Vec3 :=
  ⟨g.ox - g.dx + 2 * g.dx * a, g.oy - g.dy, g.oz - g.dz + 2 * g.dz * b⟩

/-- Direction pattern of the scan's BOTTOM face. -/
def bottomDir (a b c : ℚ) : Vec3 := ⟨-(1 / 2) + a, b, -(1 / 2) + c⟩

/-- Surface-point pattern of the scan's LEFT face. -/
def leftPt (g : Geom) (a b : ℚ) : Vec3 :=
  ⟨g.ox - g.dx, g.oy - g.dy + 2 * g.dy * a, g.oz - g.dz + 2 * g.dz * b⟩

/-- Direction pattern of the scan's LEFT face. -/
def leftDir (a b c : ℚ) : Vec3 := ⟨a, -(1 / 2) + b, -(1 / 2) + c⟩

/-- Surface-point pattern of the scan's RIGHT face. -/
def rightPt (g : Geom) (a b : ℚ) : Vec3 :=
  ⟨g.ox + g.dx, g.oy - g.dy + 2 * g.dy * a, g.oz - g.dz + 2 * g.dz * b⟩

/-- Direction pattern of the scan's RIGHT face. -/
def rightDir (a b c : ℚ) : Vec3 := ⟨-a, -(1 / 2) + b, -(1 / 2) + c⟩

/-- Surface-point pattern of the scan's BACK face. -/
def backPt (g : Geom) (a b : ℚ) : Vec3 :=
  ⟨g.ox - g.dx + 2 * g.dx * a, g.oy - g.dy + 2 * g.dy * b, g.oz - g.dz⟩

/-- Direction pattern of the scan's BACK face. -/
def backDir (a b c : ℚ) : Vec3 := ⟨-(1 / 2) + a, -(1 / 2) + b, c⟩

/-- Surface-point pattern of the scan's FRONT face. -/
def frontPt (g : Geom) (a b : ℚ) : Vec3 :=
  ⟨g.ox - g.dx + 2 * g.dx * a, g.oy - g.dy + 2 * g.dy * b, g.oz + g.dz⟩

/-- Direction pattern of the scan's FRONT face. -/
def frontDir (a b c : ℚ) : Vec3 := ⟨-(1 / 2) + a, -(1 / 2) + b, -c⟩

/-- The per-nuclide scan of ComputeMaxPathLengths: the six box faces in
source order (top, bottom, left, right, back, front), sharing one running
MaxPath (initialized to 0) and the one global random stream.  Returns the
maximum and the stream position after the scan. -/
def scanPdg (g : Geom) (cfg : Config) (stream : ℕ → ℚ) (pdgc : ℤ)
    (k : ℕ) : ℚ × ℕ :=
  match pointLoop g cfg pdgc stream (topPt g) topDir cfg.fNPoints k 0 with
  | (a1, k1) =>
  match pointLoop g cfg pdgc stream (bottomPt g) bottomDir cfg.fNPoints k1 a1 with
  | (a2, k2) =>
  match pointLoop g cfg pdgc stream (leftPt g) leftDir cfg.fNPoints k2 a2 with
  | (a3, k3) =>
  match pointLoop g cfg pdgc stream (rightPt g) rightDir cfg.fNPoints k3 a3 with
  | (a4, k4) =>
  match pointLoop g cfg pdgc stream (backPt g) backDir cfg.fNPoints k4 a4 with
  | (a5, k5) =>
  pointLoop g cfg pdgc stream (frontPt g) frontDir cfg.fNPoints k5 a5

/-- ROOTGeomAnalyzer::ComputeMaxPathLengths.  With no geometry the error
is logged and the current max list reference — null before any successful
Load — is handed back unchanged.  Otherwise the max list is zeroed, each
nuclide of the target list is scanned over the six bounding-box faces with
its maximum recorded via AddPathLength, and the list is rescaled by
fScale.  `stream`/`k` model the process-wide random source and its
position; the position after the call is returned for chaining. -/
def ComputeMaxPathLengths (st : AnalyzerState) (stream : ℕ → ℚ) (k : ℕ) :
    Except GeomErr (Option PathLengthList × AnalyzerState × ℕ) :=
  match st.fGeometry with
  | none => .ok (st.fCurrMaxPathLengthList, st, k)
  | some g =>
      match st.fCurrMaxPathLengthList with
      | none => .error .nullDeref
      | some _ =>
          match st.fCurrPDGCodeList.foldl
              (fun (acc : PathLengthList × ℕ) pdgc =>
                match acc with
                | (pl, kk) =>
                    match scanPdg g st.cfg stream pdgc kk with
                    | (mx, k2) => (AddPathLength pdgc mx pl, k2))
              (SetAllToZero, k) with
          | (plOut, kOut) =>
              let pl2 := ScalePathLengths st.cfg plOut
              .ok (some pl2, { st with fCurrMaxPathLengthList := some pl2 }, kOut)

/-- Default-like configuration: meter units (scale 1), density weighting
on; tiny scan counts are set per test. -/
def cfg1 : Config := ⟨1, true, 200, 200⟩

/-- Simple iron-like material, density 1. -/
def matP : TGeoMaterial := ⟨false, 56, 26, [], 1⟩

/-- The nuclide code of matP. -/
def pdgP : ℤ := GetTargetPdgCodeMat matP

/-- Simple aluminium-like material, density 1 (used as a non-target). -/
def matQ : TGeoMaterial := ⟨false, 27, 13, [], 1⟩

/-- The nuclide code of matQ. -/
def pdgQ : ℤ := GetTargetPdgCodeMat matQ

/-- A 1E30-style step: the oracle's value when no boundary is ever hit. -/
def kBig : ℚ := 1000000000000000000000000000000

/-- The sentinel threshold of WillNeverEnter, 9.99E29. -/
def sentinel : ℚ := 999000000000000000000000000000

/-- An analyzer that has loaded the geometry g (lists allocated and
zeroed, vertex allocated, target list from g's materials as given). -/
def stLoaded (g : Geom) (pdgs : List ℤ) : AnalyzerState :=
  ⟨cfg1, some g, some SetAllToZero, some SetAllToZero, pdgs, some ⟨0, 0, 0⟩⟩

/-- The analyzer members right after a construction whose Load failed
(missing geometry file): nothing allocated. -/
def stUnloaded : AnalyzerState := ⟨cfg1, none, none, none, [], none⟩

/-- Mixture of two elements (A,Z) = (1,1) and (2,1), density 1. -/
def mixMat : TGeoMaterial := ⟨true, 3, 2, [(1, 1), (2, 1)], 1⟩

/-- Geometry for the mixture test: the slab 0 ≤ x < 2 holds mixMat; the
boundary-seek step is 2 − x before x = 2, then 7 − x (a further boundary
at x = 7), then near-infinite. -/
def mixGeom : Geom where
  classify := fun q => if 0 ≤ q.x ∧ q.x < 2 then .mat mixMat else .outside
  dist := fun q _ =>
    if q.x < 2 then 2 - q.x else if q.x < 7 then 7 - q.x else kBig
  dx := 1; dy := 1; dz := 1; ox := 0; oy := 0; oz := 0

/-- Geometry for the traversal-comparison test: matP fills the box
0 ≤ x < 10, |y| < 1, |z| < 1; the boundary-seek step along +x is 10 − x
before x = 10, then near-infinite. -/
def slabGeom : Geom where
  classify := fun q =>
    if 0 ≤ q.x ∧ q.x < 10 ∧ -1 < q.y ∧ q.y < 1 ∧ -1 < q.z ∧ q.z < 1 then
      .mat matP
    else .outside
  dist := fun q _ => if q.x < 10 then 10 - q.x else kBig
  dx := 5; dy := 1; dz := 1; ox := 5; oy := 0; oz := 0

/-- Same slab but filled with the non-target matQ. -/
def slabQGeom : Geom where
  classify := fun q =>
    if 0 ≤ q.x ∧ q.x < 10 ∧ -1 < q.y ∧ q.y < 1 ∧ -1 < q.z ∧ q.z < 1 then
      .mat matQ
    else .outside
  dist := fun q _ => if q.x < 10 then 10 - q.x else kBig
  dx := 5; dy := 1; dz := 1; ox := 5; oy := 0; oz := 0

/-- Two consecutive unit slabs of the same nuclide (A,Z) = (56,26) at
densities 1 and 2: 0 ≤ x < 1 holds matP and 1 ≤ x < 2 holds matP2. -/
def matP2 : TGeoMaterial := ⟨false, 56, 26, [], 2⟩

/-- Geometry with the two same-nuclide, different-density slabs. -/
def twoDensGeom : Geom where
  classify := fun q =>
    if 0 ≤ q.x ∧ q.x < 1 then .mat matP
    else if 1 ≤ q.x ∧ q.x < 2 then .mat matP2
    else .outside
  dist := fun q _ =>
    if q.x < 1 then 1 - q.x else if q.x < 2 then 2 - q.x else kBig
  dx := 1; dy := 1; dz := 1; ox := 1; oy := 0; oz := 0

/-- Geometry whose first boundary-seek step from the origin along +x is
exactly the sentinel 9.99E29, with matP occupying the next 5 units. -/
def thresholdGeom : Geom where
  classify := fun q =>
    if sentinel ≤ q.x ∧ q.x < sentinel + 5 then .mat matP else .outside
  dist := fun q _ =>
    if q.x < sentinel then sentinel - q.x
    else if q.x < sentinel + 5 then sentinel + 5 - q.x
    else kBig
  dx := 1; dy := 1; dz := 1; ox := 0; oy := 0; oz := 0

/-- Geometry that a ray never enters: everything is outside and every
boundary-seek step is near-infinite. -/
def neverGeom : Geom where
  classify := fun _ => .outside
  dist := fun _ _ => kBig
  dx := 1; dy := 1; dz := 1; ox := 0; oy := 0; oz := 0

/-- Degenerate geometry whose every point resolves to a null medium. -/
def noMedGeom : Geom where
  classify := fun _ => .noMedium
  dist := fun _ _ => 1
  dx := 1; dy := 1; dz := 1; ox := 0; oy := 0; oz := 0

/-- Value of a ComputePathLengths result at one pdg code (none on a crash
or fuel exhaustion). -/
def cplValue (st : AnalyzerState) (x u : Vec3) (fuel : ℕ) (k : ℤ) :
    Option ℚ :=
  match ComputePathLengths st x u fuel with
  | .ok (pl, _) => some (pl k)
  | .error _ => none

/-- FindNode positions visited by ComputePathLengths' stepping loop from a
fresh start (flag clear, zeroed list). -/
def cplPositions (g : Geom) (cfg : Config) (x u : Vec3) (fuel : ℕ) :
    Option (List Vec3) :=
  match cplLoop g cfg u fuel x false SetAllToZero with
  | none => none
  | some (_, tr, _) => some tr

/-- FindNode positions visited by GenerateVertex's phase-1 loop from a
fresh start. -/
def gvPositions (g : Geom) (cfg : Config) (x u : Vec3) (tgtpdg : ℤ)
    (fuel : ℕ) : Option (List Vec3) :=
  match gvLoop1 g cfg u tgtpdg fuel x false 0 with
  | none => none
  | some (_, tr) => some tr

/-- Scalar total of GenerateVertex's phase-1 loop from a fresh start. -/
def gvTotal (g : Geom) (cfg : Config) (x u : Vec3) (tgtpdg : ℤ)
    (fuel : ℕ) : Option ℚ :=
  match gvLoop1 g cfg u tgtpdg fuel x false 0 with
  | none => none
  | some (d, _) => some d

/-- The vertex stored in the analyzer after a GenerateVertex call (none on
a crash or fuel exhaustion). -/
def gvStoredVertex (st : AnalyzerState) (x u : Vec3) (tgtpdg : ℤ)
    (rnd : ℚ) (fuel : ℕ) : Option Vec3 :=
  match GenerateVertex st x u tgtpdg rnd fuel with
  | .ok (_, st2) => st2.fCurrVertex
  | .error _ => none

/-- Value of a ComputeMaxPathLengths result at one pdg code (none when the
call crashed or returned a null list reference). -/
def cmValue (st : AnalyzerState) (stream : ℕ → ℚ) (k : ℕ) (pdgc : ℤ) :
    Option ℚ :=
  match ComputeMaxPathLengths st stream k with
  | .ok (some pl, _, _) => some (pl pdgc)
  | _ => none

/-- The element loop of ComputePathLengths with the density weight factor
left out: it accumulates the raw boundary steps.  Reference loop for
stating what disabled density weighting must produce. -/
def cplMixRaw (g : Geom) (u : Vec3) :
    List (ℕ × ℕ) → Vec3 → PathLengthList → Vec3 × PathLengthList
  | [], r, pl => (r, pl)
  | e :: es, r, pl =>
      cplMixRaw g u es (advanceXYZ r u (g.dist r u))
        (AddPathLength (GetTargetPdgCodeEle e) (g.dist r u) pl)

/-- The stepping loop of ComputePathLengths with the density weight factor
left out: every attribution is the raw geometric boundary step.  Reference
loop for stating what disabled density weighting must produce. -/
def cplLoopRaw (g : Geom) (u : Vec3) :
    ℕ → Vec3 → Bool → PathLengthList →
    Option (PathLengthList × List Vec3 × Bool)
  | 0, _, _, _ => none
  | fuel + 1, r, flag, pl =>
      match g.classify r with
      | .outside =>
          if flag then some (pl, [r], false)
          else
            if WillNeverEnter (g.dist r u) then some (pl, [r], true)
            else
              match cplLoopRaw g u fuel (advanceXYZ r u (g.dist r u)) flag pl with
              | none => none
              | some (pl2, tr, early) => some (pl2, r :: tr, early)
      | .noMedium => some (pl, [r], false)
      | .noMaterial => some (pl, [r], false)
      | .mat m =>
          if m.isMixture then
            match cplMixRaw g u m.elements r pl with
            | (rMix, plMix) =>
                match cplLoopRaw g u fuel rMix true plMix with
                | none => none
                | some (pl2, tr, early) => some (pl2, r :: tr, early)
          else
            match cplLoopRaw g u fuel (advanceXYZ r u (g.dist r u)) true
                (AddPathLength (GetTargetPdgCodeMat m) (g.dist r u) pl) with
            | none => none
            | some (pl2, tr, early) => some (pl2, r :: tr, early)

/-- Geometry for the scan counterexample, in native units with a box of
half-length 4 about the origin: the oblique slab z − y = 6 (which meets
the box only near the bottom-face point (0,−4,2)) holds matP with an
8-unit boundary step; the surface shell (here the two planes
x+y+z = ±4, which contain every box-surface point the scan draws)
holds matQ with a 2-unit boundary step; everything else is outside. -/
def scanGeom : Geom where
  classify := fun q =>
    if q.z - q.y = 6 then .mat matP
    else if q.x + q.y + q.z = 4 ∨ q.x + q.y + q.z = -4 then .mat matQ
    else .outside
  dist := fun q _ => if q.z - q.y = 6 then 8 else 2
  dx := 4; dy := 4; dz := 4; ox := 0; oy := 0; oz := 0

/-- The fixed random sequence for the scan counterexample: every Rndm()
draw is 1/2 except draw number 6, which is 3/4. -/
def scanStream : ℕ → ℚ := fun n => if n = 6 then 3 / 4 else 1 / 2

/-- Scan configuration with one point and one ray per face. -/
def cfgA : Config := ⟨1, true, 1, 1⟩

/-- Scan configuration with one point and two rays per face. -/
def cfgB : Config := ⟨1, true, 1, 2⟩

/-- Configuration with density weighting disabled. -/
def cfgOff : Config := ⟨1, false, 200, 200⟩

/-- Loaded analyzer for the one-ray-per-point scan. -/
def stScanA : AnalyzerState :=
  ⟨cfgA, some scanGeom, some SetAllToZero, some SetAllToZero, [pdgP],
    some ⟨0, 0, 0⟩⟩

/-- Loaded analyzer for the two-rays-per-point scan. -/
def stScanB : AnalyzerState :=
  ⟨cfgB, some scanGeom, some SetAllToZero, some SetAllToZero, [pdgP],
    some ⟨0, 0, 0⟩⟩

/-- Loaded analyzer over the matQ slab whose stored vertex holds a value
from an earlier call. -/
def stVtxPrev : AnalyzerState :=
  ⟨cfg1, some slabQGeom, some SetAllToZero, some SetAllToZero, [pdgQ],
    some ⟨1, 2, 3⟩⟩

/-- Loaded analyzer over the null-medium geometry with density weighting
disabled. -/
def stOff : AnalyzerState :=
  ⟨cfgOff, some noMedGeom, some SetAllToZero, some SetAllToZero, [],
    some ⟨0, 0, 0⟩⟩

set_option maxRecDepth 16000

/-- C1: the claim states that in ComputePathLengths every constituent of a
mixture is attributed the same boundary-crossing distance, computed once
per segment, with the position advanced once.  On mixGeom (a two-element
mixture filling 0 ≤ x < 2, next boundary at 7) the code instead re-runs
the boundary seek per element: element (1,1) is attributed distance 2 and
element (2,1) the following segment's distance 5, and the position is
advanced by both, so the recorded entries differ. -/
theorem c1_mixture_element_restep :
    cplValue (stLoaded mixGeom [ionPdgCode 1 1, ionPdgCode 2 1])
        ⟨0, 0, 0⟩ ⟨1, 0, 0⟩ 5 (ionPdgCode 1 1) = some 2 ∧
    cplValue (stLoaded mixGeom [ionPdgCode 1 1, ionPdgCode 2 1])
        ⟨0, 0, 0⟩ ⟨1, 0, 0⟩ 5 (ionPdgCode 2 1) = some 5 ∧
    (2 : ℚ) ≠ 5 := by
  refine ⟨?_, ?_, by norm_num⟩ <;>
    norm_num [cplValue, ComputePathLengths, stLoaded, cplLoop, cplMix,
      mixGeom, mixMat, GetTargetPdgCodeEle, GetTargetPdgCodeMat, ionPdgCode,
      GetWeight, cfg1, WillNeverEnter, advanceXYZ, AddPathLength,
      SetAllToZero, ScalePathLengths, kBig]

/-- C2: with no geometry ever loaded (all member pointers null), the claim
says every entry point logs an error and returns non-fatally.  In the code
only ComputeMaxPathLengths does: ComputePathLengths has no guard and
dereferences the null current list in its initial SetAllToZero, and
GenerateVertex dereferences the null vertex in the reset that precedes its
geometry guard; ComputeMaxPathLengths hands back the (null) max-list
reference unchanged. -/
theorem c2_missing_geometry_guards :
    ComputePathLengths stUnloaded ⟨0, 0, 0⟩ ⟨1, 0, 0⟩ 10 =
      .error .nullDeref ∧
    GenerateVertex stUnloaded ⟨0, 0, 0⟩ ⟨1, 0, 0⟩ pdgP 0 10 =
      .error .nullDeref ∧
    ComputeMaxPathLengths stUnloaded (fun _ => 0) 0 =
      .ok (none, stUnloaded, 0) :=
  ⟨rfl, rfl, rfl⟩

/-- C3: the claim states GenerateVertex's phase 1 visits the same position
sequence as ComputePathLengths on the same ray.  On the matP slab
0 ≤ x < 10 along direction (1,0,0), ComputePathLengths visits (0,0,0) then
(10,0,0), while phase 1 of GenerateVertex — advancing through TVector3
indices 1,2,3 — visits (0,0,0) then (0,10,0): the traversals differ. -/
theorem c3_vertex_phase1_diverges :
    cplPositions slabGeom cfg1 ⟨0, 0, 0⟩ ⟨1, 0, 0⟩ 5 =
      some [⟨0, 0, 0⟩, ⟨10, 0, 0⟩] ∧
    gvPositions slabGeom cfg1 ⟨0, 0, 0⟩ ⟨1, 0, 0⟩ pdgP 5 =
      some [⟨0, 0, 0⟩, ⟨0, 10, 0⟩] ∧
    ([⟨0, 0, 0⟩, ⟨10, 0, 0⟩] : List Vec3) ≠ [⟨0, 0, 0⟩, ⟨0, 10, 0⟩] := by
  refine ⟨?_, ?_, by norm_num [Vec3.mk.injEq]⟩
  · norm_num [cplPositions, cplLoop, slabGeom, matP, GetTargetPdgCodeMat,
      ionPdgCode, GetWeight, cfg1, WillNeverEnter, advanceXYZ, AddPathLength,
      SetAllToZero, kBig]
  · norm_num [gvPositions, gvLoop1, slabGeom, matP, GetTargetPdgCodeMat,
      ionPdgCode, GetWeight, cfg1, advanceIdx123, pdgP, kBig]

/-- C7: the claim states that advancing the transient position in
GenerateVertex updates all three Cartesian components by step times the
corresponding direction component, through indices in 0,1,2.  The code's
update (advanceIdx123, from the r[1],r[2],r[3] statements) moves the point
(0,0,0) one unit along direction (1,0,0) to (0,1,0) — the y component
receives the x-direction increment — instead of (1,0,0) as claimed (the
behavior of advanceXYZ used elsewhere in the file). -/
theorem c7_index_slip :
    advanceIdx123 ⟨0, 0, 0⟩ ⟨1, 0, 0⟩ 1 = ⟨0, 1, 0⟩ ∧
    advanceXYZ ⟨0, 0, 0⟩ ⟨1, 0, 0⟩ 1 = ⟨1, 0, 0⟩ ∧
    advanceIdx123 ⟨0, 0, 0⟩ ⟨1, 0, 0⟩ 1 ≠ advanceXYZ ⟨0, 0, 0⟩ ⟨1, 0, 0⟩ 1 := by
  refine ⟨?_, ?_, ?_⟩ <;> norm_num [advanceIdx123, advanceXYZ, Vec3.mk.injEq]

/-- Invariants of the bounded scan loop: the final Length is the incoming
Length plus the raw steps of the matching traversed segments, and the
final weight cell holds the weight of the last matching segment (or the
incoming weight when none matches). -/
theorem cmplLoop_spec (g : Geom) (cfg : Config) (u : Vec3) (pdgc : ℤ) :
    ∀ (fuel : ℕ) (r : Vec3) (flag : Bool) (len w : ℚ),
      (cmplLoop g cfg u pdgc fuel r flag len w).1 =
          len + matchLengthSum pdgc
            (cmplLoop g cfg u pdgc fuel r flag len w).2.2.1 ∧
      (cmplLoop g cfg u pdgc fuel r flag len w).2.1 =
          lastMatchWeight pdgc w
            (cmplLoop g cfg u pdgc fuel r flag len w).2.2.1
  | 0, r, flag, len, w => by
      simp [cmplLoop, matchLengthSum, lastMatchWeight]
  | fuel + 1, r, flag, len, w => by
      unfold cmplLoop
      cases hc : g.classify r with
      | outside =>
          dsimp only
          cases flag with
          | true => simp [matchLengthSum, lastMatchWeight]
          | false =>
              simp only [Bool.false_eq_true, if_false]
              exact cmplLoop_spec g cfg u pdgc fuel _ _ _ _
      | noMedium => simp [matchLengthSum, lastMatchWeight]
      | noMaterial => simp [matchLengthSum, lastMatchWeight]
      | mat mm =>
          dsimp only
          have ih := cmplLoop_spec g cfg u pdgc fuel
              (advanceXYZ r u (g.dist r u)) true
              (if GetTargetPdgCodeMat mm = pdgc then len + g.dist r u else len)
              (if GetTargetPdgCodeMat mm = pdgc then GetWeight cfg mm else w)
          rcases hrec : cmplLoop g cfg u pdgc fuel
              (advanceXYZ r u (g.dist r u)) true
              (if GetTargetPdgCodeMat mm = pdgc then len + g.dist r u else len)
              (if GetTargetPdgCodeMat mm = pdgc then GetWeight cfg mm else w)
            with ⟨len3, w3, segs, ex⟩
          rw [hrec] at ih
          obtain ⟨ih1, ih2⟩ := ih
          dsimp only at ih1 ih2 ⊢
          constructor
          · rw [ih1]
            simp only [matchLengthSum]
            by_cases hpd : GetTargetPdgCodeMat mm = pdgc
            · simp only [if_pos hpd]
              ring
            · simp only [if_neg hpd]
              ring
          · rw [ih2]
            simp only [lastMatchWeight]

/-- C4 (amended): the per-sample result of the bounded scan equals the
total raw length of the matching segments times the weight of the LAST
matching segment (zero when none matches) — not the claim's per-segment
weighted sum, with which it coincides only when all matching segments
share one weight. -/
theorem c4_length_times_last_weight (g : Geom) (cfg : Config)
    (xyz u : Vec3) (pdgc : ℤ) :
    ComputeMaxPathLengthPDG g cfg xyz u pdgc =
      matchLengthSum pdgc (cmplSegs g cfg xyz u pdgc) *
        lastMatchWeight pdgc 0 (cmplSegs g cfg xyz u pdgc) := by
  unfold ComputeMaxPathLengthPDG cmplSegs
  have hs := cmplLoop_spec g cfg u pdgc 100 xyz false 0 0
  rcases hrec : cmplLoop g cfg u pdgc 100 xyz false 0 0 with ⟨len, w, segs, ex⟩
  rw [hrec] at hs
  obtain ⟨h1, h2⟩ := hs
  dsimp only at h1 h2 ⊢
  rw [h1, h2, zero_add]

/-- C4 (counterexample): on two consecutive unit slabs of the same
nuclide with densities 1 and 2, the bounded scan returns
(1+1) × 2 = 4, while the claim's sum over traversed matching segments of
(segment length × that segment's density weight) is 1·1 + 1·2 = 3. -/
theorem c4_last_weight_counterexample :
    ComputeMaxPathLengthPDG twoDensGeom cfg1 ⟨0, 0, 0⟩ ⟨1, 0, 0⟩ pdgP = 4 ∧
    matchWeightedSum pdgP (cmplSegs twoDensGeom cfg1 ⟨0, 0, 0⟩ ⟨1, 0, 0⟩ pdgP) = 3 ∧
    (4 : ℚ) ≠ 3 := by
  have h4 : cmplLoop twoDensGeom cfg1 ⟨1, 0, 0⟩ pdgP 4 ⟨0, 0, 0⟩ false 0 0 =
      (2, 2, [(pdgP, 1, 1), (pdgP, 1, 2)], true) := by
    norm_num [cmplLoop, twoDensGeom, matP, matP2, GetTargetPdgCodeMat,
      ionPdgCode, GetWeight, cfg1, advanceXYZ, pdgP, kBig]
  have h100 := cmplLoop_extend twoDensGeom cfg1 ⟨1, 0, 0⟩ pdgP 4 96
      ⟨0, 0, 0⟩ false 0 0 2 2 [(pdgP, 1, 1), (pdgP, 1, 2)] h4
  norm_num at h100
  refine ⟨?_, ?_, by norm_num⟩
  · rw [ComputeMaxPathLengthPDG, h100]
    norm_num
  · rw [cmplSegs, h100]
    norm_num [matchWeightedSum]

/-- C5 (counterexample): with the stored vertex holding (1,2,3) from an
earlier call, a GenerateVertex call whose ray meets no target material
returns with the stored vertex equal to (0,0,0) — the reset performed at
the top of the call — not the previous value (1,2,3) that the claim says
is left in place. -/
theorem c5_previous_vertex_counterexample :
    gvStoredVertex stVtxPrev ⟨0, 0, 0⟩ ⟨1, 0, 0⟩ pdgP (1 / 2) 5 =
      some ⟨0, 0, 0⟩ ∧
    stVtxPrev.fCurrVertex = some ⟨1, 2, 3⟩ ∧
    (⟨0, 0, 0⟩ : Vec3) ≠ ⟨1, 2, 3⟩ := by
  refine ⟨?_, rfl, by norm_num [Vec3.mk.injEq]⟩
  norm_num [gvStoredVertex, GenerateVertex, stVtxPrev, gvLoop1, slabQGeom,
    matQ, GetTargetPdgCodeMat, ionPdgCode, GetWeight, cfg1, advanceIdx123,
    pdgP, pdgQ, matP, kBig]

/-- C5 (amended): when the phase-1 total is exactly zero, GenerateVertex
fails without crashing — it logs an error and returns — and the vertex it
returns and stores is the sentinel (0,0,0) to which the stored vertex was
reset at the start of the call, not the pre-call value. -/
theorem c5_zero_total_resets_vertex (st : AnalyzerState) (g : Geom)
    (v0 x u : Vec3) (tgtpdg : ℤ) (rnd : ℚ) (fuel : ℕ) (tr : List Vec3)
    (hv : st.fCurrVertex = some v0) (hg : st.fGeometry = some g)
    (hloop : gvLoop1 g st.cfg u tgtpdg fuel x false 0 = some (0, tr)) :
    GenerateVertex st x u tgtpdg rnd fuel =
      .ok (⟨0, 0, 0⟩, { st with fCurrVertex := some ⟨0, 0, 0⟩ }) := by
  unfold GenerateVertex
  rw [hv]
  dsimp only
  rw [hg]
  dsimp only
  rw [hloop]
  simp

/-- C5 witness: the amended statement evaluated on the matQ slab with a
previous vertex (1,2,3) and target matP. -/
theorem c5_zero_total_resets_vertex_witness :
    GenerateVertex stVtxPrev ⟨0, 0, 0⟩ ⟨1, 0, 0⟩ pdgP (1 / 2) 5 =
      .ok (⟨0, 0, 0⟩, { stVtxPrev with fCurrVertex := some ⟨0, 0, 0⟩ }) :=
  c5_zero_total_resets_vertex stVtxPrev slabQGeom ⟨1, 2, 3⟩ ⟨0, 0, 0⟩
    ⟨1, 0, 0⟩ pdgP (1 / 2) 5 [⟨0, 0, 0⟩, ⟨0, 10, 0⟩] rfl rfl
    (by norm_num [gvLoop1, stVtxPrev, slabQGeom, matQ, GetTargetPdgCodeMat,
      ionPdgCode, GetWeight, cfg1, advanceIdx123, pdgP, pdgQ, matP, kBig])

/-- C6 (counterexample): a step of exactly 9.99E29 reported while seeking
entry does not terminate the computation: WillNeverEnter is a strict
comparison, so on thresholdGeom (first boundary exactly at the sentinel
distance, matP for 5 units beyond it) ComputePathLengths keeps walking and
returns 5 for matP's nuclide instead of the all-zero record accumulated at
the moment of that step. -/
theorem c6_sentinel_boundary_counterexample :
    WillNeverEnter sentinel = false ∧
    thresholdGeom.classify ⟨0, 0, 0⟩ = .outside ∧
    thresholdGeom.dist ⟨0, 0, 0⟩ ⟨1, 0, 0⟩ = sentinel ∧
    cplValue (stLoaded thresholdGeom [pdgP]) ⟨0, 0, 0⟩ ⟨1, 0, 0⟩ 5 pdgP =
      some 5 ∧
    (5 : ℚ) ≠ 0 := by
  refine ⟨by norm_num [WillNeverEnter, sentinel], ?_, ?_, ?_, by norm_num⟩
  · norm_num [thresholdGeom, sentinel]
  · norm_num [thresholdGeom, sentinel]
  · norm_num [cplValue, ComputePathLengths, stLoaded, cplLoop, thresholdGeom,
      matP, GetTargetPdgCodeMat, ionPdgCode, GetWeight, cfg1, WillNeverEnter,
      advanceXYZ, AddPathLength, SetAllToZero, ScalePathLengths, sentinel,
      kBig, pdgP]

/-- C6 (amended): whenever the oracle reports a step STRICTLY above
9.99E29 while seeking entry, the stepping loop returns the accumulated
list immediately (unscaled early return), and ComputePathLengths on a
fresh ray returns the all-zero record. -/
theorem c6_strict_sentinel_early_return (st : AnalyzerState) (g : Geom)
    (x u : Vec3) (pl0 : PathLengthList) (fuel : ℕ)
    (hg : st.fGeometry = some g) (hpl : st.fCurrPathLengthList = some pl0)
    (hout : g.classify x = .outside)
    (hwne : WillNeverEnter (g.dist x u) = true) :
    (∀ pl : PathLengthList,
        cplLoop g st.cfg u (fuel + 1) x false pl = some (pl, [x], true)) ∧
    ComputePathLengths st x u (fuel + 1) =
      .ok (SetAllToZero, { st with fCurrPathLengthList := some SetAllToZero }) := by
  have hl : ∀ pl : PathLengthList,
      cplLoop g st.cfg u (fuel + 1) x false pl = some (pl, [x], true) := by
    intro pl
    unfold cplLoop
    rw [hout]
    dsimp only
    rw [hwne]
    simp
  refine ⟨hl, ?_⟩
  unfold ComputePathLengths
  rw [hpl, hg]
  dsimp only
  rw [hl SetAllToZero]
  simp

/-- C6 witness: the amended statement evaluated on a geometry that a ray
from the origin never enters (every boundary-seek step is 1E30). -/
theorem c6_strict_sentinel_early_return_witness :
    (∀ pl : PathLengthList,
        cplLoop neverGeom (stLoaded neverGeom [pdgP]).cfg ⟨1, 0, 0⟩ 1
          ⟨0, 0, 0⟩ false pl = some (pl, [⟨0, 0, 0⟩], true)) ∧
    ComputePathLengths (stLoaded neverGeom [pdgP]) ⟨0, 0, 0⟩ ⟨1, 0, 0⟩ 1 =
      .ok (SetAllToZero,
        { stLoaded neverGeom [pdgP] with
            fCurrPathLengthList := some SetAllToZero }) :=
  c6_strict_sentinel_early_return (stLoaded neverGeom [pdgP]) neverGeom
    ⟨0, 0, 0⟩ ⟨1, 0, 0⟩ SetAllToZero 0 rfl rfl rfl
    (by norm_num [WillNeverEnter, neverGeom, kBig])

/-- C8: ComputePathLengths resets the current record at the start of every
call, so its result does not depend on the record's previous contents: an
immediately repeated call with the same start point and direction on the
unchanged geometry returns the identical record and leaves the analyzer
state fixed. -/
theorem c8_idempotent (st st2 : AnalyzerState) (g : Geom)
    (pl0 res : PathLengthList) (x u : Vec3) (fuel : ℕ)
    (hg : st.fGeometry = some g) (hpl : st.fCurrPathLengthList = some pl0)
    (h1 : ComputePathLengths st x u fuel = .ok (res, st2)) :
    ComputePathLengths st2 x u fuel = .ok (res, st2) := by
  unfold ComputePathLengths at h1 ⊢
  rw [hpl, hg] at h1
  dsimp only at h1
  rcases hloop : cplLoop g st.cfg u fuel x false SetAllToZero with _ | ⟨pl, tr, early⟩
  · rw [hloop] at h1
    cases h1
  · rw [hloop] at h1
    dsimp only at h1
    cases early with
    | true =>
        rw [if_pos rfl] at h1
        injection h1 with h2
        injection h2 with ha hb
        subst ha
        subst hb
        dsimp only
        rw [hloop]
        dsimp only
        rw [if_pos rfl]
    | false =>
        simp only [Bool.false_eq_true, if_false] at h1
        injection h1 with h2
        injection h2 with ha hb
        subst ha
        subst hb
        dsimp only
        rw [hloop]
        dsimp only
        simp only [Bool.false_eq_true, if_false]

/-- C8 witness: the repeated call evaluated on the null-medium geometry. -/
theorem c8_idempotent_witness :
    ComputePathLengths
        { stLoaded noMedGeom [] with
            fCurrPathLengthList := some (ScalePathLengths cfg1 SetAllToZero) }
        ⟨0, 0, 0⟩ ⟨1, 0, 0⟩ 3 =
      .ok (ScalePathLengths cfg1 SetAllToZero,
        { stLoaded noMedGeom [] with
            fCurrPathLengthList := some (ScalePathLengths cfg1 SetAllToZero) }) :=
  c8_idempotent (stLoaded noMedGeom [])
    { stLoaded noMedGeom [] with
        fCurrPathLengthList := some (ScalePathLengths cfg1 SetAllToZero) }
    noMedGeom SetAllToZero (ScalePathLengths cfg1 SetAllToZero)
    ⟨0, 0, 0⟩ ⟨1, 0, 0⟩ 3 rfl rfl rfl

/-- With density weighting disabled the mixture element loop accumulates
the raw boundary steps. -/
theorem cplMix_weight_off (g : Geom) (cfg : Config) (u : Vec3)
    (m : TGeoMaterial) (hw : cfg.fWeightWithDensity = false) :
    ∀ (es : List (ℕ × ℕ)) (r : Vec3) (pl : PathLengthList),
      cplMix g cfg u m es r pl = cplMixRaw g u es r pl
  | [], r, pl => rfl
  | e :: es, r, pl => by
      unfold cplMix cplMixRaw
      dsimp only
      rw [GetWeight, hw]
      simp only [Bool.false_eq_true, if_false, mul_one]
      exact cplMix_weight_off g cfg u m hw es _ _

/-- With density weighting disabled the stepping loop of
ComputePathLengths coincides with the raw-step loop. -/
theorem cplLoop_weight_off (g : Geom) (cfg : Config) (u : Vec3)
    (hw : cfg.fWeightWithDensity = false) :
    ∀ (fuel : ℕ) (r : Vec3) (flag : Bool) (pl : PathLengthList),
      cplLoop g cfg u fuel r flag pl = cplLoopRaw g u fuel r flag pl
  | 0, r, flag, pl => rfl
  | fuel + 1, r, flag, pl => by
      unfold cplLoop cplLoopRaw
      cases hc : g.classify r with
      | outside =>
          dsimp only
          rw [cplLoop_weight_off g cfg u hw fuel]
      | noMedium => rfl
      | noMaterial => rfl
      | mat mm =>
          dsimp only
          by_cases hmix : mm.isMixture
          · simp only [hmix, if_true]
            rw [cplMix_weight_off g cfg u mm hw mm.elements r pl]
            rcases cplMixRaw g u mm.elements r pl with ⟨r2, pl2⟩
            dsimp only
            rw [cplLoop_weight_off g cfg u hw fuel]
          · simp only [hmix, Bool.false_eq_true, if_false]
            rw [GetWeight, hw]
            simp only [Bool.false_eq_true, if_false, mul_one]
            rw [cplLoop_weight_off g cfg u hw fuel]

/-- C9: GetWeight is the material density exactly when density weighting
is enabled and exactly 1.0 when it is disabled; consequently, with
weighting disabled the stepping loop coincides with the raw-step loop,
and ComputePathLengths returns the raw geometric segment lengths times
only the unit scale factor. -/
theorem c9_weight_toggle (cfg : Config) (g : Geom)
    (hw : cfg.fWeightWithDensity = false) :
    (∀ (cfg2 : Config) (m : TGeoMaterial), cfg2.fWeightWithDensity = true →
        GetWeight cfg2 m = m.density) ∧
    (∀ m : TGeoMaterial, GetWeight cfg m = 1) ∧
    (∀ (u : Vec3) (fuel : ℕ) (r : Vec3) (flag : Bool) (pl : PathLengthList),
        cplLoop g cfg u fuel r flag pl = cplLoopRaw g u fuel r flag pl) ∧
    (∀ (st : AnalyzerState) (x u : Vec3) (fuel : ℕ) (raw pl0 : PathLengthList)
        (tr : List Vec3) (k : ℤ),
        st.cfg = cfg → st.fGeometry = some g →
        st.fCurrPathLengthList = some pl0 →
        cplLoopRaw g u fuel x false SetAllToZero = some (raw, tr, false) →
        cplValue st x u fuel k = some (cfg.fScale * raw k)) := by
  refine ⟨?_, ?_, fun u => cplLoop_weight_off g cfg u hw, ?_⟩
  · intro cfg2 m h2
    rw [GetWeight, h2]
    simp
  · intro m
    rw [GetWeight, hw]
    simp
  · intro st x u fuel raw pl0 tr k hcfg hg hpl hraw
    unfold cplValue ComputePathLengths
    rw [hpl, hg]
    dsimp only
    rw [hcfg, cplLoop_weight_off g cfg u hw fuel, hraw]
    dsimp only
    simp [ScalePathLengths]

/-- C9 witness: the toggle statement evaluated with weighting disabled on
the null-medium geometry. -/
theorem c9_weight_toggle_witness :
    GetWeight cfgOff matP = 1 ∧
    cplLoop noMedGeom cfgOff ⟨1, 0, 0⟩ 2 ⟨0, 0, 0⟩ false SetAllToZero =
      cplLoopRaw noMedGeom ⟨1, 0, 0⟩ 2 ⟨0, 0, 0⟩ false SetAllToZero ∧
    cplValue stOff ⟨0, 0, 0⟩ ⟨1, 0, 0⟩ 2 pdgP =
      some (cfgOff.fScale * SetAllToZero pdgP) := by
  have h := c9_weight_toggle cfgOff noMedGeom rfl
  exact ⟨h.2.1 matP, h.2.2.1 ⟨1, 0, 0⟩ 2 ⟨0, 0, 0⟩ false SetAllToZero,
    h.2.2.2 stOff ⟨0, 0, 0⟩ ⟨1, 0, 0⟩ 2 SetAllToZero SetAllToZero
      [⟨0, 0, 0⟩] pdgP rfl rfl rfl rfl⟩

/-- scanGeom box half-length in x. -/
theorem scanGeom_dx : scanGeom.dx = 4 := rfl

/-- scanGeom box half-length in y. -/
theorem scanGeom_dy : scanGeom.dy = 4 := rfl

/-- scanGeom box half-length in z. -/
theorem scanGeom_dz : scanGeom.dz = 4 := rfl

/-- scanGeom box origin x. -/
theorem scanGeom_ox : scanGeom.ox = 0 := rfl

/-- scanGeom box origin y. -/
theorem scanGeom_oy : scanGeom.oy = 0 := rfl

/-- scanGeom box origin z. -/
theorem scanGeom_oz : scanGeom.oz = 0 := rfl

/-- cfgA scans one point per face. -/
theorem cfgA_points : cfgA.fNPoints = 1 := rfl

/-- cfgA scans one ray per point. -/
theorem cfgA_rays : cfgA.fNRays = 1 := rfl

/-- cfgA uses scale factor 1. -/
theorem cfgA_scale : cfgA.fScale = 1 := rfl

/-- cfgB scans one point per face. -/
theorem cfgB_points : cfgB.fNPoints = 1 := rfl

/-- cfgB scans two rays per point. -/
theorem cfgB_rays : cfgB.fNRays = 2 := rfl

/-- cfgB uses scale factor 1. -/
theorem cfgB_scale : cfgB.fScale = 1 := rfl

/-- stScanA configuration projection. -/
theorem stScanA_cfg : stScanA.cfg = cfgA := rfl

/-- stScanA geometry projection. -/
theorem stScanA_geom : stScanA.fGeometry = some scanGeom := rfl

/-- stScanA max-list projection. -/
theorem stScanA_max : stScanA.fCurrMaxPathLengthList = some SetAllToZero := rfl

/-- stScanA target-list projection. -/
theorem stScanA_pdgs : stScanA.fCurrPDGCodeList = [pdgP] := rfl

/-- stScanB configuration projection. -/
theorem stScanB_cfg : stScanB.cfg = cfgB := rfl

/-- stScanB geometry projection. -/
theorem stScanB_geom : stScanB.fGeometry = some scanGeom := rfl

/-- stScanB max-list projection. -/
theorem stScanB_max : stScanB.fCurrMaxPathLengthList = some SetAllToZero := rfl

/-- stScanB target-list projection. -/
theorem stScanB_pdgs : stScanB.fCurrPDGCodeList = [pdgP] := rfl

/-- Sample value of the scan ray from the top-face point (0,4,0) going
down: matQ only, so 0 for matP's nuclide. -/
theorem scanSampleTop (cfg : Config) :
    ComputeMaxPathLengthPDG scanGeom cfg ⟨0, 4, 0⟩ ⟨0, -1, 0⟩ pdgP = 0 := by
  have h3 : cmplLoop scanGeom cfg ⟨0, -1, 0⟩ pdgP 3 ⟨0, 4, 0⟩ false 0 0 =
      (0, 0, [(pdgQ, 2, GetWeight cfg matQ)], true) := by
    norm_num [cmplLoop, scanGeom, matP, matQ, GetTargetPdgCodeMat,
      ionPdgCode, advanceXYZ, pdgP, pdgQ]
  have h100 := cmplLoop_extend scanGeom cfg ⟨0, -1, 0⟩ pdgP 3 97
      ⟨0, 4, 0⟩ false 0 0 0 0 [(pdgQ, 2, GetWeight cfg matQ)] h3
  norm_num at h100
  rw [ComputeMaxPathLengthPDG, h100]
  norm_num

/-- Sample value of the scan ray from the bottom-face point (0,−4,2)
going up: it starts in the matP slab with boundary step 8, so 8. -/
theorem scanSampleJackpot (cfg : Config) :
    ComputeMaxPathLengthPDG scanGeom cfg ⟨0, -4, 2⟩ ⟨0, 1, 0⟩ pdgP = 8 := by
  have h3 : cmplLoop scanGeom cfg ⟨0, 1, 0⟩ pdgP 3 ⟨0, -4, 2⟩ false 0 0 =
      (8, GetWeight cfg matP, [(pdgP, 8, GetWeight cfg matP)], true) := by
    norm_num [cmplLoop, scanGeom, matP, matQ, GetTargetPdgCodeMat,
      ionPdgCode, advanceXYZ, pdgP, pdgQ]
  have h100 := cmplLoop_extend scanGeom cfg ⟨0, 1, 0⟩ pdgP 3 97
      ⟨0, -4, 2⟩ false 0 0 8 (GetWeight cfg matP)
      [(pdgP, 8, GetWeight cfg matP)] h3
  norm_num at h100
  rw [ComputeMaxPathLengthPDG, h100]
  norm_num [GetWeight, matP]

/-- Sample value of the scan ray from the bottom-face point (0,−4,0)
going up (the point the shifted stream of the two-ray scan draws):
matQ only, so 0. -/
theorem scanSampleBottom (cfg : Config) :
    ComputeMaxPathLengthPDG scanGeom cfg ⟨0, -4, 0⟩ ⟨0, 1, 0⟩ pdgP = 0 := by
  have h3 : cmplLoop scanGeom cfg ⟨0, 1, 0⟩ pdgP 3 ⟨0, -4, 0⟩ false 0 0 =
      (0, 0, [(pdgQ, 2, GetWeight cfg matQ)], true) := by
    norm_num [cmplLoop, scanGeom, matP, matQ, GetTargetPdgCodeMat,
      ionPdgCode, advanceXYZ, pdgP, pdgQ]
  have h100 := cmplLoop_extend scanGeom cfg ⟨0, 1, 0⟩ pdgP 3 97
      ⟨0, -4, 0⟩ false 0 0 0 0 [(pdgQ, 2, GetWeight cfg matQ)] h3
  norm_num at h100
  rw [ComputeMaxPathLengthPDG, h100]
  norm_num

/-- Sample value of the scan ray from the left-face point (−4,0,0) going
right: matQ only, so 0. -/
theorem scanSampleLeft (cfg : Config) :
    ComputeMaxPathLengthPDG scanGeom cfg ⟨-4, 0, 0⟩ ⟨1, 0, 0⟩ pdgP = 0 := by
  have h3 : cmplLoop scanGeom cfg ⟨1, 0, 0⟩ pdgP 3 ⟨-4, 0, 0⟩ false 0 0 =
      (0, 0, [(pdgQ, 2, GetWeight cfg matQ)], true) := by
    norm_num [cmplLoop, scanGeom, matP, matQ, GetTargetPdgCodeMat,
      ionPdgCode, advanceXYZ, pdgP, pdgQ]
  have h100 := cmplLoop_extend scanGeom cfg ⟨1, 0, 0⟩ pdgP 3 97
      ⟨-4, 0, 0⟩ false 0 0 0 0 [(pdgQ, 2, GetWeight cfg matQ)] h3
  norm_num at h100
  rw [ComputeMaxPathLengthPDG, h100]
  norm_num

/-- Sample value of the scan ray from the right-face point (4,0,0) going
left: matQ only, so 0. -/
theorem scanSampleRight (cfg : Config) :
    ComputeMaxPathLengthPDG scanGeom cfg ⟨4, 0, 0⟩ ⟨-1, 0, 0⟩ pdgP = 0 := by
  have h3 : cmplLoop scanGeom cfg ⟨-1, 0, 0⟩ pdgP 3 ⟨4, 0, 0⟩ false 0 0 =
      (0, 0, [(pdgQ, 2, GetWeight cfg matQ)], true) := by
    norm_num [cmplLoop, scanGeom, matP, matQ, GetTargetPdgCodeMat,
      ionPdgCode, advanceXYZ, pdgP, pdgQ]
  have h100 := cmplLoop_extend scanGeom cfg ⟨-1, 0, 0⟩ pdgP 3 97
      ⟨4, 0, 0⟩ false 0 0 0 0 [(pdgQ, 2, GetWeight cfg matQ)] h3
  norm_num at h100
  rw [ComputeMaxPathLengthPDG, h100]
  norm_num

/-- Sample value of the scan ray from the back-face point (0,0,−4) going
forward: matQ only, so 0. -/
theorem scanSampleBack (cfg : Config) :
    ComputeMaxPathLengthPDG scanGeom cfg ⟨0, 0, -4⟩ ⟨0, 0, 1⟩ pdgP = 0 := by
  have h3 : cmplLoop scanGeom cfg ⟨0, 0, 1⟩ pdgP 3 ⟨0, 0, -4⟩ false 0 0 =
      (0, 0, [(pdgQ, 2, GetWeight cfg matQ)], true) := by
    norm_num [cmplLoop, scanGeom, matP, matQ, GetTargetPdgCodeMat,
      ionPdgCode, advanceXYZ, pdgP, pdgQ]
  have h100 := cmplLoop_extend scanGeom cfg ⟨0, 0, 1⟩ pdgP 3 97
      ⟨0, 0, -4⟩ false 0 0 0 0 [(pdgQ, 2, GetWeight cfg matQ)] h3
  norm_num at h100
  rw [ComputeMaxPathLengthPDG, h100]
  norm_num

/-- Sample value of the scan ray from the front-face point (0,0,4) going
backward: matQ only, so 0. -/
theorem scanSampleFront (cfg : Config) :
    ComputeMaxPathLengthPDG scanGeom cfg ⟨0, 0, 4⟩ ⟨0, 0, -1⟩ pdgP = 0 := by
  have h3 : cmplLoop scanGeom cfg ⟨0, 0, -1⟩ pdgP 3 ⟨0, 0, 4⟩ false 0 0 =
      (0, 0, [(pdgQ, 2, GetWeight cfg matQ)], true) := by
    norm_num [cmplLoop, scanGeom, matP, matQ, GetTargetPdgCodeMat,
      ionPdgCode, advanceXYZ, pdgP, pdgQ]
  have h100 := cmplLoop_extend scanGeom cfg ⟨0, 0, -1⟩ pdgP 3 97
      ⟨0, 0, 4⟩ false 0 0 0 0 [(pdgQ, 2, GetWeight cfg matQ)] h3
  norm_num at h100
  rw [ComputeMaxPathLengthPDG, h100]
  norm_num

set_option maxHeartbeats 1600000 in
/-- C10 (counterexample): on scanGeom with the fixed random sequence
scanStream, the scan with one ray per point records 8 for matP's nuclide
(its bottom-face sample draws the point (0,−4,2) whose upward ray crosses
the matP slab), while raising the ray count to two shifts every later
sample's position in the stream — the bottom face now draws (0,−4,0) and
every sample misses the slab — so the recorded maximum DROPS to 0,
contradicting the claimed never-decreasing behavior (which would require
8 ≤ 0 here). -/
theorem c10_stream_shift_counterexample :
    cmValue stScanA scanStream 0 pdgP = some 8 ∧
    cmValue stScanB scanStream 0 pdgP = some 0 ∧
    ¬ ((8 : ℚ) ≤ 0) := by
  refine ⟨?_, ?_, by norm_num⟩
  · norm_num [cmValue, ComputeMaxPathLengths, scanPdg, pointLoop, rayLoop,
      topPt, topDir, bottomPt, bottomDir, leftPt, leftDir, rightPt, rightDir,
      backPt, backDir, frontPt, frontDir, scanStream, normDir, ratSqrt, isqrt,
      maxPathUpdate, scanGeom_dx, scanGeom_dy, scanGeom_dz, scanGeom_ox,
      scanGeom_oy, scanGeom_oz, cfgA_points, cfgA_rays, cfgA_scale,
      stScanA_cfg, stScanA_geom, stScanA_max, stScanA_pdgs, scanSampleTop,
      scanSampleJackpot, scanSampleBottom, scanSampleLeft, scanSampleRight,
      scanSampleBack, scanSampleFront, AddPathLength, SetAllToZero,
      ScalePathLengths, List.range, List.range.loop]
  · norm_num [cmValue, ComputeMaxPathLengths, scanPdg, pointLoop, rayLoop,
      topPt, topDir, bottomPt, bottomDir, leftPt, leftDir, rightPt, rightDir,
      backPt, backDir, frontPt, frontDir, scanStream, normDir, ratSqrt, isqrt,
      maxPathUpdate, scanGeom_dx, scanGeom_dy, scanGeom_dz, scanGeom_ox,
      scanGeom_oy, scanGeom_oz, cfgB_points, cfgB_rays, cfgB_scale,
      stScanB_cfg, stScanB_geom, stScanB_max, stScanB_pdgs, scanSampleTop,
      scanSampleJackpot, scanSampleBottom, scanSampleLeft, scanSampleRight,
      scanSampleBack, scanSampleFront, AddPathLength, SetAllToZero,
      ScalePathLengths, List.range, List.range.loop]

/-- The running maximum of a ray loop never falls below its incoming
accumulator. -/
theorem rayLoop_acc_le (g : Geom) (cfg : Config) (pdgc : ℤ)
    (stream : ℕ → ℚ) (dirOf : ℚ → ℚ → ℚ → Vec3) (xyz : Vec3) :
    ∀ (n k : ℕ) (acc : ℚ),
      acc ≤ (rayLoop g cfg pdgc stream dirOf xyz n k acc).1
  | 0, k, acc => le_refl acc
  | n + 1, k, acc => by
      unfold rayLoop
      refine le_trans ?_ (rayLoop_acc_le g cfg pdgc stream dirOf xyz n (k + 3) _)
      unfold maxPathUpdate
      split_ifs with h
      · exact le_of_lt h
      · exact le_refl acc

/-- The running maximum of a face's point loop never falls below its
incoming accumulator. -/
theorem pointLoop_acc_le (g : Geom) (cfg : Config) (pdgc : ℤ)
    (stream : ℕ → ℚ) (ptOf : ℚ → ℚ → Vec3) (dirOf : ℚ → ℚ → ℚ → Vec3) :
    ∀ (n k : ℕ) (acc : ℚ),
      acc ≤ (pointLoop g cfg pdgc stream ptOf dirOf n k acc).1
  | 0, k, acc => le_refl acc
  | n + 1, k, acc => by
      unfold pointLoop
      rcases hray : rayLoop g cfg pdgc stream dirOf
          (ptOf (stream k) (stream (k + 1))) cfg.fNRays (k + 2) acc
        with ⟨acc2, k2⟩
      dsimp only
      refine le_trans ?_ (pointLoop_acc_le g cfg pdgc stream ptOf dirOf n k2 acc2)
      have h := rayLoop_acc_le g cfg pdgc stream dirOf
          (ptOf (stream k) (stream (k + 1))) cfg.fNRays (k + 2) acc
      rw [hray] at h
      exact h

/-- Scanning one more point of the same face (its draws appended after
the existing samples' draws) never lowers the face's running maximum. -/
theorem pointLoop_succ_le (g : Geom) (cfg : Config) (pdgc : ℤ)
    (stream : ℕ → ℚ) (ptOf : ℚ → ℚ → Vec3) (dirOf : ℚ → ℚ → ℚ → Vec3) :
    ∀ (n k : ℕ) (acc : ℚ),
      (pointLoop g cfg pdgc stream ptOf dirOf n k acc).1 ≤
        (pointLoop g cfg pdgc stream ptOf dirOf (n + 1) k acc).1
  | 0, k, acc => by
      exact pointLoop_acc_le g cfg pdgc stream ptOf dirOf 1 k acc
  | n + 1, k, acc => by
      conv_lhs => rw [pointLoop]
      conv_rhs => rw [pointLoop]
      rcases hray : rayLoop g cfg pdgc stream dirOf
          (ptOf (stream k) (stream (k + 1))) cfg.fNRays (k + 2) acc
        with ⟨acc2, k2⟩
      dsimp only
      exact pointLoop_succ_le g cfg pdgc stream ptOf dirOf n k2 acc2

/-- C10 (amended): within a single invocation each per-face scan is a
running maximum: at a fixed stream position, raising that face's point
count never decreases the face's maximum.  The full-scan claim fails
because changing the configured counts shifts the stream positions from
which all later samples draw (see the counterexample). -/
theorem c10_point_count_monotone (g : Geom) (cfg : Config) (pdgc : ℤ)
    (stream : ℕ → ℚ) (ptOf : ℚ → ℚ → Vec3) (dirOf : ℚ → ℚ → ℚ → Vec3)
    (m n : ℕ) (hmn : m ≤ n) (k : ℕ) (acc : ℚ) :
    (pointLoop g cfg pdgc stream ptOf dirOf m k acc).1 ≤
      (pointLoop g cfg pdgc stream ptOf dirOf n k acc).1 := by
  induction n with
  | zero =>
      rw [Nat.le_zero.mp hmn]
  | succ n ih =>
      rcases Nat.lt_or_ge m (n + 1) with hlt | hge
      · exact le_trans (ih (Nat.lt_succ_iff.mp hlt))
          (pointLoop_succ_le g cfg pdgc stream ptOf dirOf n k acc)
      · rw [Nat.le_antisymm hmn hge]

/-- C10 witness: the per-face monotonicity evaluated on scanGeom's top
face between zero and one point. -/
theorem c10_point_count_monotone_witness :
    (pointLoop scanGeom cfgA pdgP scanStream (topPt scanGeom) topDir
        0 0 0).1 ≤
      (pointLoop scanGeom cfgA pdgP scanStream (topPt scanGeom) topDir
        1 0 0).1 :=
  c10_point_count_monotone scanGeom cfgA pdgP scanStream (topPt scanGeom)
    topDir 0 1 (by norm_num) 0 0
